import Mathlib

/-!
Verification of the TaxBuddy core (text normalizer, document chunker,
vector-store search post-processing, retrieval/synthesis orchestrator and
LLM client) against its natural-language specification.

Embedding conventions:
* Python `str` is modelled as `List Char` (`Str`) where character-level
  reasoning is needed (chunker, preprocessor) and as Lean `String` where
  strings are opaque payloads (pipeline, LLM client, vector store).
* Python floats of the pipeline are modelled as rationals.
* External collaborators (embedding model, Chroma query backend, Groq chat
  backend) are parameters of the embedded functions; a fallible backend is
  an `Except`.
* A Python function that can raise on some inputs is embedded with an
  `Option` result (`none` = the exception).
-/

namespace TaxBuddy

/-- Python string, modelled as a list of characters. -/
abbrev Str := List Char

/-- ASCII whitespace as recognised by Python `str.strip()` and `\s`
(the texts handled here are ASCII; `Char.ofNat 11`/`12` are `\v`/`\f`). -/
def pyIsSpace (c : Char) : Bool :=
  c = ' ' || c = '\t' || c = '\n' || c = '\r' || c = Char.ofNat 11 || c = Char.ofNat 12

/-- Python `s.lstrip()`. -/
def pyLStrip (s : Str) : Str := s.dropWhile pyIsSpace

/-- Python `s.rstrip()`. -/
def pyRStrip (s : Str) : Str := (s.reverse.dropWhile pyIsSpace).reverse

/-- Python `s.strip()`. -/
def pyStrip (s : Str) : Str := pyLStrip (pyRStrip s)

/-- Truthiness of `s.strip()`: the string has a non-whitespace character. -/
def hasContent (s : Str) : Bool := s.any (fun c => !pyIsSpace c)

/-- Worker for Python `str.split(sep)` with non-empty `sep`: scan left to
right, cutting at each non-overlapping occurrence of `sep`.  Each step
consumes at least one input character, so fuel `length s + 1` never runs
out on the wrapper's call. -/
def splitGo (sep : Str) : Nat → Str → Str → List Str
  | 0, s, acc => [acc.reverse ++ s]
  | _+1, [], acc => [acc.reverse]
  | fuel+1, c :: rest, acc =>
    if sep.isPrefixOf (c :: rest) then
      acc.reverse :: splitGo sep fuel (List.drop (sep.length - 1) rest) []
    else
      splitGo sep fuel rest (c :: acc)

/-- Python `s.split(sep)` (the sources never call it with an empty `sep`). -/
def pySplit (s sep : Str) : List Str :=
  if sep = [] then [s] else splitGo sep (s.length + 1) s []

/-- Whether `sub` occurs contiguously in `s`. -/
def isSubstring (sub : Str) : Str → Bool
  | [] => sub.isEmpty
  | c :: rest => sub.isPrefixOf (c :: rest) || isSubstring sub rest

/-- Python `sub in s` (substring test). -/
def pyContains (s sub : Str) : Bool := isSubstring sub s

/-- Python `s[-n:]` for `n > 0`: the trailing `min n (length s)` characters. -/
def takeLast (n : Nat) (s : Str) : Str := s.drop (s.length - n)

/-- Worker for Python `s.split()`; each step consumes at least one
character, so fuel `length s + 1` never runs out on the wrapper's call. -/
def pySplitWsGo : Nat → Str → List Str
  | 0, _ => []
  | _, [] => []
  | fuel+1, c :: cs =>
    if pyIsSpace c then pySplitWsGo fuel cs
    else ((c :: cs).takeWhile (fun x => !pyIsSpace x)) ::
      pySplitWsGo fuel ((c :: cs).dropWhile (fun x => !pyIsSpace x))

/-- Python `s.split()` (no argument): split on whitespace runs, dropping
empty pieces. -/
def pySplitWs (s : Str) : List Str := pySplitWsGo (s.length + 1) s

/-- Python `range(0, stop, step)` as a list of indices; `none` models the
`ValueError` raised when `step == 0`. -/
def pyRange0 (stop step : Int) : Option (List Int) :=
  if step = 0 then none
  else if 0 < step then
    some ((List.range ((stop + step - 1) / step).toNat).map
      (fun (k : Nat) => (k : Int) * step))
  else
    some ((List.range ((-stop + (-step) - 1) / (-step)).toNat).map
      (fun (k : Nat) => (k : Int) * step))

/-! ## Document chunker (`src/core/document_chunker.py`) -/

/-- `TaxDocumentChunker.separators`, ordered coarse to fine. -/
def separators : List Str :=
  [("\n## ").toList, ("\n### ").toList, ("\nExample").toList, ("\nNote:").toList,
   ("\n\n").toList, (". ").toList, (" ").toList]

/-- State of the accumulation loop in `TaxDocumentChunker.split_text`:
the emitted `chunks` and the `current_chunk` being built. -/
structure AccState where
  chunks : List Str
  current : Str

/-- The reassignment `split = separator + split if current_chunk else split`
performed at the top of the loop body (skipped for the space separator). -/
def reattach (sep cur piece : Str) : Str :=
  if sep ≠ (" ").toList ∧ cur ≠ [] then sep ++ piece else piece

/-- One iteration of `for split in splits` in `split_text` (`C` is
`self.chunk_size`, `o` is `self.chunk_overlap`).  Mirrors the source: the
separator is reattached to the piece when `current_chunk` is non-empty, the
size check uses that reattached piece, and the accumulating branch prepends
the separator once more. -/
def accStep (C o : Nat) (sep : Str) (st : AccState) (piece : Str) : AccState :=
  if st.current.length + (reattach sep st.current piece).length ≤ C then
    { st with current := st.current ++
        (if sep = (" ").toList then reattach sep st.current piece
         else if st.current ≠ [] then sep ++ reattach sep st.current piece
         else reattach sep st.current piece) }
  else
    { chunks := if hasContent st.current then st.chunks ++ [st.current] else st.chunks,
      current :=
        if 0 < o ∧ st.current ≠ [] then takeLast o st.current ++ reattach sep st.current piece
        else reattach sep st.current piece }

/-- The trailing `if current_chunk.strip(): chunks.append(current_chunk)`
after the loop. -/
def finalEmit (st : AccState) : List Str :=
  if hasContent st.current then st.chunks ++ [st.current] else st.chunks

/-- The accumulation branch of `split_text` (a separator was found): fold
the loop over the pieces, then emit the final non-blank `current_chunk`. -/
def accumulate (C o : Nat) (sep : Str) (pieces : List Str) : List Str :=
  finalEmit (pieces.foldl (accStep C o sep) ⟨[], []⟩)

/-- The fixed-width fallback of `split_text`:
`[text[i:i+chunk_size] for i in range(0, len(text), chunk_size - chunk_overlap)]`
(`none` models the `ValueError` raised by `range` when the step is zero). -/
def fallbackSlices (C o : Nat) (text : Str) : Option (List Str) :=
  (pyRange0 ((text.length : Nat) : Int) ((C : Int) - (o : Int))).map
    (fun idxs => idxs.map (fun i => (text.drop i.toNat).take C))

/-- `TaxDocumentChunker.split_text`. -/
def split_text (C o : Nat) (text : Str) (seps : List Str) : Option (List Str) :=
  if text.length ≤ C then
    some (if hasContent text then [text] else [])
  else
    match seps.find? (fun sep => pyContains text sep) with
    | some sep => some (accumulate C o sep (pySplit text sep))
    | none => fallbackSlices C o text

/-- Whether `split_text` takes the fixed-width fallback on `text` (no listed
separator occurs and the text is longer than the chunk size). -/
def usesFallback (C : Nat) (text : Str) (seps : List Str) : Bool :=
  C < text.length && (seps.find? (fun sep => pyContains text sep)).isNone

/-- The length of the longest piece in a list of pieces. -/
def maxLen (ls : List Str) : Nat := (ls.map List.length).foldr max 0

/-- The chunk-length bound `split_text` actually guarantees: the chunk size
itself on the base and fallback paths, and
`max (C + |sep|) (o + |sep| + longest piece)` on the separator path. -/
def splitBound (C o : Nat) (text : Str) (seps : List Str) : Nat :=
  if text.length ≤ C then C
  else
    match seps.find? (fun sep => pyContains text sep) with
    | some sep => max (C + sep.length) (o + sep.length + maxLen (pySplit text sep))
    | none => C

/-! ## A small regex engine

The preprocessor (`src/core/text_preprocessor.py`) is a pipeline of
`re.sub` passes.  To embed it executably we implement the fragment of
Python `re` its patterns use: character predicates, concatenation, ordered
alternation, greedy and lazy `*`, capture groups, and the
MULTILINE `^`/`$` anchors.  The matcher enumerates matches in Python's
backtracking preference order (first alternative first, greedy quantifier
longest first), so the head of the result list is the match Python picks.
-/

/-- Regular expressions (the fragment used by the sources). -/
inductive RE where
  | eps : RE
  | pred : (Char → Bool) → RE
  | cat : RE → RE → RE
  | alt : RE → RE → RE
  | star : Bool → RE → RE
  | group : Nat → RE → RE
  | bol : RE
  | eol : RE

/-- Matcher state: the character just before the scan position (for the
MULTILINE `^`), the remaining input, and the captures so far (latest
first). -/
structure MSt where
  prev : Option Char
  rest : Str
  caps : List (Nat × Str)

/-- Star loop: iterate `body`, requiring each iteration to consume at least
one character (no pattern in the sources has a nullable star body); results
in preference order (greedy: longer first; lazy: shorter first). -/
def mstar (body : MSt → List MSt) (g : Bool) : Nat → MSt → List MSt
  | 0, st => [st]
  | fuel+1, st =>
    let deeper := (body st).flatMap (fun st2 =>
      if st2.rest.length < st.rest.length then mstar body g fuel st2 else [])
    if g then deeper ++ [st] else st :: deeper

/-- Backtracking matcher: all ways `r` can match a prefix of `st.rest`, in
Python's preference order. -/
def mre : RE → MSt → List MSt
  | .eps, st => [st]
  | .pred p, st =>
    match st.rest with
    | [] => []
    | c :: cs => if p c then [⟨some c, cs, st.caps⟩] else []
  | .cat a b, st => (mre a st).flatMap (fun st2 => mre b st2)
  | .alt a b, st => mre a st ++ mre b st
  | .star g a, st => mstar (fun st2 => mre a st2) g st.rest.length st
  | .group i a, st =>
    (mre a st).map (fun st2 =>
      ⟨st2.prev, st2.rest, (i, st.rest.take (st.rest.length - st2.rest.length)) :: st2.caps⟩)
  | .bol, st =>
    match st.prev with
    | none => [st]
    | some c => if c = '\n' then [st] else []
  | .eol, st =>
    match st.rest with
    | [] => [st]
    | c :: _ => if c = '\n' then [st] else []

/-- `match.group i`: the text captured by group `i` (latest repetition). -/
def capGet (caps : List (Nat × Str)) (i : Nat) : Str :=
  match caps.find? (fun p => p.1 = i) with
  | some p => p.2
  | none => []

/-- Worker for `re.sub`: scan left to right, replacing each leftmost
non-overlapping match (the head of the matcher's result list); on an empty
match the replacement is emitted and one character copied, as in Python.
Each step consumes at least one character, so fuel `length s + 1` never
runs out on the wrapper's call. -/
def reSubGo (r : RE) (repl : List (Nat × Str) → Str) : Option Char → Str → Nat → Str
  | _, s, 0 => s
  | prev, s, fuel+1 =>
    match mre r ⟨prev, s, []⟩ with
    | st2 :: _ =>
      let consumed := s.length - st2.rest.length
      if consumed = 0 then
        match s with
        | [] => repl st2.caps
        | c :: cs => repl st2.caps ++ c :: reSubGo r repl (some c) cs fuel
      else
        repl st2.caps ++ reSubGo r repl ((s.take consumed).getLast?) st2.rest fuel
    | [] =>
      match s with
      | [] => []
      | c :: cs => c :: reSubGo r repl (some c) cs fuel

/-- Python `re.sub(r, repl, s)`. -/
def reSub (r : RE) (repl : List (Nat × Str) → Str) (s : Str) : Str :=
  reSubGo r repl none s (s.length + 1)

/-- Truthiness of Python `re.match(r, s)`: `r` matches at the start. -/
def reMatchStart (r : RE) (s : Str) : Bool :=
  !(mre r ⟨none, s, []⟩).isEmpty

/-- The quantifier `?`. -/
def RE.opt (g : Bool) (r : RE) : RE := if g then .alt r .eps else .alt .eps r

/-- The quantifier `+`. -/
def RE.plus (g : Bool) (r : RE) : RE := .cat r (.star g r)

/-- The quantifier `{n}`. -/
def RE.repExact : Nat → RE → RE
  | 0, _ => .eps
  | n+1, r => .cat r (RE.repExact n r)

/-- The quantifier `{n,}` (greedy). -/
def RE.repAtLeast (n : Nat) (r : RE) : RE := .cat (RE.repExact n r) (.star true r)

/-- Sequence a list of regexes. -/
def reSeq (rs : List RE) : RE := rs.foldr .cat .eps

/-- Case-sensitive literal character. -/
def chS (c : Char) : RE := .pred (fun x => x = c)

/-- IGNORECASE literal character (ASCII case folding). -/
def chI (c : Char) : RE := .pred (fun x => x.toLower = c.toLower)

/-- Case-sensitive literal string. -/
def litS (s : String) : RE := reSeq (s.toList.map chS)

/-- IGNORECASE literal string. -/
def litI (s : String) : RE := reSeq (s.toList.map chI)

/-- The class `\s` (ASCII). -/
def clsS : RE := .pred pyIsSpace

/-- The class `\d` (ASCII). -/
def clsD : RE := .pred Char.isDigit

/-- The class `[^\n]`. -/
def clsNotNl : RE := .pred (fun c => !(c = '\n'))

/-- The class `.` under DOTALL. -/
def clsAny : RE := .pred (fun _ => true)

/-- The class `\w` (ASCII). -/
def clsW : RE := .pred (fun c => c.isAlphanum || c = '_')

/-- The class `[\dA-Z]` under IGNORECASE. -/
def clsDigitLetter : RE := .pred (fun c => c.isDigit || c.isUpper || c.isLower)

/-- The class `[A-Z\-]` under IGNORECASE. -/
def clsLetterDash : RE := .pred (fun c => c.isUpper || c.isLower || c = '-')

/-- The pattern `\s*`. -/
def sStar : RE := .star true clsS

/-- The pattern `\s+`. -/
def sPlus : RE := RE.plus true clsS

/-- The pattern `\d+`. -/
def dPlus : RE := RE.plus true clsD

/-- The pattern `[^\n]*`. -/
def notNlStar : RE := .star true clsNotNl

/-- The pattern `\n?`. -/
def nlOpt : RE := RE.opt true (chS '\n')

/-! ## Text preprocessor (`src/core/text_preprocessor.py`): patterns -/

/-- `IRS_PRINT_METADATA` (IGNORECASE). -/
def reIrsPrintMetadata : RE :=
  .cat (.alt (litI "Userid") (.alt (litI "Schema") (.alt (litI "Leadpct")
      (.alt (reSeq [litI "Pt.", sStar, litI "size"])
        (.alt (reSeq [litI "Draft", sPlus, litI "Ok", sPlus, litI "to", sPlus, litI "Print"])
          (reSeq [litI "AH", sPlus, litI "XSL/XML"]))))))
    (reSeq [sStar, RE.opt true (chI ':'), sStar, notNlStar, nlOpt])

/-- `IRS_FILEID_LINE` (IGNORECASE). -/
def reIrsFileidLine : RE :=
  reSeq [litI "Fileid:", sStar, notNlStar, chS '\n']

/-- `IRS_PAGE_OF` (IGNORECASE). -/
def reIrsPageOf : RE :=
  reSeq [litI "Page", sPlus, dPlus, sPlus, litI "of", sPlus, dPlus, sPlus, notNlStar, nlOpt]

/-- `IRS_MUST_REMOVE` (IGNORECASE). -/
def reIrsMustRemove : RE :=
  reSeq [litI "The", sPlus, litI "type", sPlus, litI "and", sPlus, litI "rule", sPlus,
    litI "above", sPlus, litI "prints", sPlus, litI "on", sPlus, litI "all", sPlus,
    litI "proofs", notNlStar, litI "MUST", sPlus, litI "be", sPlus, litI "removed", sPlus,
    litI "before", sPlus, litI "printing.", sStar, nlOpt]

/-- `IRS_PUB_PAGE_FOOTER` (IGNORECASE). -/
def reIrsPubPageFooter : RE :=
  reSeq [litI "Publication", sPlus, dPlus, sStar, chI '(', RE.repExact 4 clsD, chI ')', sStar,
    RE.opt true (reSeq [litI "Catalog", sPlus, litI "Number", sPlus,
      RE.plus true clsDigitLetter, sStar]),
    RE.opt true (reSeq [RE.plus true clsW, sPlus, dPlus,
      .star true (.pred (fun c => pyIsSpace c || c = '-'))]),
    .star true clsD, sStar, nlOpt]

/-- `IRS_PUB_CHAPTER_FOOTER` (IGNORECASE). -/
def reIrsPubChapterFooter : RE :=
  reSeq [litI "Publication", sPlus, dPlus, sStar, chI '(', RE.repExact 4 clsD, chI ')', sPlus,
    litI "Chapter", sPlus, dPlus, notNlStar, nlOpt]

/-- `IRS_INSTRUCTIONS_FOOTER` (IGNORECASE). -/
def reIrsInstructionsFooter : RE :=
  reSeq [litI "Instructions", sPlus, litI "for", sPlus, litI "Form", sPlus, dPlus,
    .star true clsLetterDash, sStar, chI '(', RE.repExact 4 clsD, chI ')', sPlus,
    .star true clsD, sStar, nlOpt]

/-- `IRS_DEPT_TREASURY` (IGNORECASE). -/
def reIrsDeptTreasury : RE :=
  reSeq [litI "Department", sPlus, litI "of", sPlus, litI "the", sPlus, litI "Treasury",
    sStar, notNlStar, nlOpt, litI "Internal", sPlus, litI "Revenue", sPlus, litI "Service",
    notNlStar, nlOpt]

/-- `IRS_CATALOG_LINE` (IGNORECASE). -/
def reIrsCatalogLine : RE :=
  reSeq [litI "Catalog", sPlus, litI "Number", sPlus, RE.plus true clsDigitLetter, sStar, nlOpt]

/-- `IRS_TOC_DOTS` (MULTILINE). -/
def reIrsTocDots : RE :=
  reSeq [.bol, notNlStar, sPlus, chS '.', sPlus,
    RE.repAtLeast 3 (.group 1 (.cat (chS '.') sStar)), sStar, dPlus, sStar, .eol]

/-- `IRS_STANDALONE_PAGE` (MULTILINE, IGNORECASE). -/
def reIrsStandalonePage : RE :=
  reSeq [.bol, .alt (litI "Page") (litI "Chapter"), sPlus, dPlus, sStar, .eol]

/-- The inline pattern `\(Form\s+\d+[A-Z\-]*\)` (case-sensitive). -/
def reFormCode : RE :=
  reSeq [chS '(', litS "Form", sPlus, dPlus,
    .star true (.pred (fun c => c.isUpper || c = '-')), chS ')']

/-- The inline pattern `Cat\.\s*No\.\s*\d+[A-Z]?` (IGNORECASE). -/
def reCatNo : RE :=
  reSeq [litI "Cat.", sStar, litI "No.", sStar, dPlus,
    RE.opt true (.pred (fun c => c.isUpper || c.isLower))]

/-- The hyphenation pattern `([a-zA-Z0-9]+)-\s*\n\s*([a-zA-Z][a-zA-Z0-9]*)`
(case-sensitive). -/
def reHyphenBreak : RE :=
  reSeq [.group 1 (RE.plus true (.pred Char.isAlphanum)), chS '-', sStar, chS '\n', sStar,
    .group 2 (.cat (.pred Char.isAlpha) (.star true (.pred Char.isAlphanum)))]

/-- The pattern `\[\s*TABLE\s*\]\s*\[\s*/\s*TABLE\s*\]` (IGNORECASE). -/
def reEmptyTable : RE :=
  reSeq [chS '[', sStar, litI "TABLE", sStar, chS ']', sStar,
    chS '[', sStar, chS '/', sStar, litI "TABLE", sStar, chS ']']

/-- The pattern `\[\s*TABLE\s*\]\s*\[\s*TABLE\s*\]` (IGNORECASE). -/
def reDoubleTable : RE :=
  reSeq [chS '[', sStar, litI "TABLE", sStar, chS ']', sStar,
    chS '[', sStar, litI "TABLE", sStar, chS ']']

/-- The pattern `\[TABLE\](.*?)\[/TABLE\]` (DOTALL, IGNORECASE). -/
def reTableBlock : RE :=
  reSeq [chS '[', litI "TABLE", chS ']', .group 1 (.star false clsAny),
    chS '[', chS '/', litI "TABLE", chS ']']

/-- The pattern `[ \t]+`. -/
def reSpaceTabRun : RE := RE.plus true (.pred (fun c => c = ' ' || c = '\t'))

/-- The pattern `\n\s*\n\s*\n+`. -/
def reTripleNl : RE :=
  reSeq [chS '\n', sStar, chS '\n', sStar, RE.plus true (chS '\n')]

/-- The pattern ` +\n`. -/
def reSpacesNl : RE := .cat (RE.plus true (chS ' ')) (chS '\n')

/-- The pattern `\n +`. -/
def reNlSpaces : RE := .cat (chS '\n') (RE.plus true (chS ' '))

/-- The heading pattern `^(Chapter|Part|Section|\d+\.)` of
`TaxDocumentChunker.extract_context` (case-sensitive, used with
`re.match`). -/
def reContextHeading : RE :=
  .cat .bol (.group 1 (.alt (litS "Chapter") (.alt (litS "Part")
    (.alt (litS "Section") (.cat dPlus (chS '.'))))))

/-! ## Text preprocessor: passes -/

/-- Constant replacement string for `re.sub`. -/
def constRepl (s : String) : List (Nat × Str) → Str := fun _ => s.toList

/-- Python `s.replace(old, new)` (all non-overlapping occurrences, left to
right). -/
def pyReplace (s old new : Str) : Str := List.intercalate new (pySplit s old)

/-- Model of `unicodedata.normalize("NFKC", ·)` on the character repertoire
this pipeline distinguishes: NFKC is the identity on ASCII and on the
dash/quote marks replaced just after it, and decomposes the two ligature
glyphs `ﬁ`/`ﬂ` handled there to `fi`/`fl`. -/
def nfkcChar (c : Char) : Str :=
  if c = Char.ofNat 0xfb01 then ("fi").toList
  else if c = Char.ofNat 0xfb02 then ("fl").toList
  else [c]

/-- NFKC normalization (modelled per `nfkcChar`). -/
def nfkc (s : Str) : Str := s.flatMap nfkcChar

/-- `_unicode_and_typography`. -/
def unicodeTypography (t : Str) : Str :=
  let t := nfkc t
  let t := pyReplace t [Char.ofNat 0xfb01] (("fi").toList)
  let t := pyReplace t [Char.ofNat 0xfb02] (("fl").toList)
  let t := pyReplace t [Char.ofNat 0x2013] (("-").toList)
  let t := pyReplace t [Char.ofNat 0x2014] ((" - ").toList)
  let t := pyReplace t [Char.ofNat 0x2018] [Char.ofNat 39]
  let t := pyReplace t [Char.ofNat 0x2019] [Char.ofNat 39]
  let t := pyReplace t [Char.ofNat 0x201c] [Char.ofNat 34]
  let t := pyReplace t [Char.ofNat 0x201d] [Char.ofNat 34]
  t

/-- The `remove_irs_metadata` block of `preprocess_irs_text`, in source
order. -/
def removeIrsMetadata (t : Str) : Str :=
  let t := reSub reIrsPrintMetadata (constRepl "") t
  let t := reSub reIrsFileidLine (constRepl "") t
  let t := reSub reIrsPageOf (constRepl "") t
  let t := reSub reIrsMustRemove (constRepl "") t
  let t := reSub reIrsPubPageFooter (constRepl "") t
  let t := reSub reIrsPubChapterFooter (constRepl "") t
  let t := reSub reIrsInstructionsFooter (constRepl "") t
  let t := reSub reIrsDeptTreasury (constRepl "") t
  let t := reSub reIrsCatalogLine (constRepl "") t
  let t := reSub reIrsTocDots (constRepl "") t
  let t := reSub reIrsStandalonePage (constRepl "") t
  let t := reSub reFormCode (constRepl "") t
  let t := reSub reCatNo (constRepl "") t
  t

/-- `_fix_hyphenated_line_breaks`: the replacement rejoins the two captured
word fragments. -/
def fixHyphenatedLineBreaks (t : Str) : Str :=
  reSub reHyphenBreak (fun caps => capGet caps 1 ++ capGet caps 2) t

/-- The inner `while` of `_join_soft_line_breaks`: absorb continuation
lines into `line`, returning the grown line and the unconsumed lines. -/
def softJoinLoop (line : Str) (ls : List Str) : Str × List Str :=
  match ls with
  | [] => (line, [])
  | next :: rest =>
    if !hasContent next then (line, next :: rest)
    else
      let stripped := pyRStrip line
      match stripped.getLast? with
      | none => (line, next :: rest)
      | some lastChar =>
        match (pyLStrip next).head? with
        | none => (line, next :: rest)
        | some firstChar =>
          if lastChar = '.' || lastChar = '?' || lastChar = '!' ||
             lastChar = ':' || lastChar = ';' then (line, next :: rest)
          else if firstChar.isUpper && (lastChar = ')' || lastChar = Char.ofNat 34) then
            (line, next :: rest)
          else if firstChar.isLower || firstChar.isDigit ||
              lastChar = '(' || lastChar = '-' || lastChar = Char.ofNat 39 ||
              lastChar = Char.ofNat 34 then
            softJoinLoop (pyRStrip line ++ ' ' :: pyLStrip next) rest
          else (line, next :: rest)

/-- The outer loop of `_join_soft_line_breaks`; a whitespace-only line is
kept as an empty paragraph-break line.  Each step consumes at least one
line, so fuel `length lines` never runs out on the wrapper's call (the
inner loop never grows the remaining-line list). -/
def softJoinAll : Nat → List Str → List Str
  | 0, _ => []
  | _, [] => []
  | fuel+1, l :: rest =>
    if !hasContent l then [] :: softJoinAll fuel rest
    else
      let lr := softJoinLoop l rest
      lr.1 :: softJoinAll fuel lr.2

/-- `_join_soft_line_breaks`. -/
def joinSoftLineBreaks (t : Str) : Str :=
  let lines := pySplit t [Char.ofNat 10]
  List.intercalate [Char.ofNat 10] (softJoinAll lines.length lines)

/-- The per-block rewrite of `_clean_table_blocks`: keep non-blank rows,
collapsing inner whitespace runs and stripping each kept row. -/
def cleanOneTable (caps : List (Nat × Str)) : Str :=
  let inner := capGet caps 1
  let lines := (pySplit inner [Char.ofNat 10]).filter (fun line => hasContent line)
  let lines := lines.map (fun line => pyStrip (reSub sPlus (constRepl " ") line))
  ("[TABLE]\n").toList ++ List.intercalate [Char.ofNat 10] lines ++ ("\n[/TABLE]\n").toList

/-- `_clean_table_blocks`. -/
def cleanTableBlocks (t : Str) : Str :=
  let t := reSub reEmptyTable (constRepl "") t
  let t := reSub reDoubleTable (constRepl "[TABLE]") t
  let t := reSub reTableBlock cleanOneTable t
  t

/-- `_normalize_whitespace`. -/
def normalizeWhitespace (t : Str) : Str :=
  let t := reSub reSpaceTabRun (constRepl " ") t
  let t := reSub reTripleNl (constRepl "\n\n") t
  let t := reSub reSpacesNl (constRepl "\n") t
  let t := reSub reNlSpaces (constRepl "\n") t
  pyStrip t

/-- `preprocess_irs_text` with its keyword options (all default to
`true`); empty or whitespace-only input is returned unchanged. -/
def preprocess_irs_text (text : Str)
    (fix_hyphenation : Bool := true) (join_soft_breaks : Bool := true)
    (remove_irs_metadata : Bool := true) (clean_tables : Bool := true)
    (normalize_whitespace : Bool := true) (unicode_fixes : Bool := true) : Str :=
  if !hasContent text then text
  else
    let t := if unicode_fixes then unicodeTypography text else text
    let t := if remove_irs_metadata then removeIrsMetadata t else t
    let t := if fix_hyphenation then fixHyphenatedLineBreaks t else t
    let t := if join_soft_breaks then joinSoftLineBreaks t else t
    let t := if clean_tables then cleanTableBlocks t else t
    let t := if normalize_whitespace then normalizeWhitespace t else t
    t

/-- `preprocess_chunk_text`. -/
def preprocess_chunk_text (chunk_text : Str) : Str := preprocess_irs_text chunk_text

/-! ## Document chunker: metadata and `chunk_document` -/

/-- `TaxDocumentChunker.extract_context`: scan the first five lines for a
heading; otherwise fall back to `"Page N"`. -/
def extract_context (text : Str) (page_num : Int) : Str :=
  let lines := pySplit text [Char.ofNat 10]
  match (lines.take 5).find? (fun line => reMatchStart reContextHeading (pyStrip line)) with
  | some line => pyStrip line
  | none => ("Page ").toList ++ (toString page_num).toList

/-- One page of a processed document (`page_number`, `text`). -/
structure PageData where
  page_number : Int
  text : Str
deriving DecidableEq, Repr

/-- A `DocumentChunk` with its metadata dictionary flattened into fields. -/
structure DocumentChunk where
  text : Str
  source : Str
  page : Int
  chunk_index : Nat
  context : Str
  char_count : Nat
  word_count : Nat
  chunk_id : Str
deriving DecidableEq, Repr

/-- `TaxDocumentChunker.chunk_document`: skip blank pages, normalize, take
the context label, split, and number the chunks with a per-document
counter; `none` models the `ValueError` `split_text` can raise. -/
def chunk_document (C o : Nat) (doc_data : List PageData) (source_file : Str) :
    Option (List DocumentChunk) :=
  (doc_data.foldl (fun acc page =>
    match acc with
    | none => none
    | some st =>
      if !hasContent page.text then some st
      else
        let text := preprocess_chunk_text page.text
        let context := extract_context text page.page_number
        match split_text C o text separators with
        | none => none
        | some text_chunks =>
          some (text_chunks.foldl (fun st2 chunk_text =>
            let counter := st2.1 + 1
            (counter, st2.2 ++ [{
              text := chunk_text, source := source_file, page := page.page_number,
              chunk_index := counter, context := context,
              char_count := chunk_text.length,
              word_count := (pySplitWs chunk_text).length,
              chunk_id := source_file ++ ("_").toList ++ (toString counter).toList }])) st))
    (some ((0 : Nat), ([] : List DocumentChunk)))).map (fun st => st.2)

/-! ## Vector store (`src/core/vector_store.py`) -/

/-- One raw row of a Chroma query response, as zipped by
`ChromaVectorStore.search`: id, document, metadata fields and distance
(`none` models a null distance). -/
structure ChromaRow where
  id : String
  doc : String
  source : String
  page : Int
  context : String
  chunk_index : Int
  dist : Option ℚ
deriving DecidableEq, Repr

/-- The metadata record `search` puts on each result. -/
structure SearchMeta where
  source : String
  page : Int
  context : String
  chunk_index : Int
deriving DecidableEq, Repr

/-- One formatted result of `ChromaVectorStore.search`. -/
structure SearchResult where
  text : String
  metadata : SearchMeta
  similarity : ℚ
  id : String
deriving DecidableEq, Repr

/-- The `similarity` local of the search loop: distance converted via
`1 / (1 + distance)`, a null distance becoming similarity 1. -/
def rowSimilarity (row : ChromaRow) : ℚ :=
  match row.dist with
  | some d => 1 / (1 + d)
  | none => 1

/-- The post-processing loop of `ChromaVectorStore.search` over the backend
rows: distance is converted to a similarity and rows below a positive
`score_threshold` are skipped.  The nearest-neighbour query itself (limit,
metadata filter) is the Chroma backend, abstracted as the row list. -/
def search (rows : List ChromaRow) (score_threshold : ℚ) : List SearchResult :=
  rows.filterMap (fun row =>
    if score_threshold > 0 ∧ rowSimilarity row < score_threshold then none
    else some { text := row.doc,
                metadata := { source := row.source, page := row.page,
                              context := row.context, chunk_index := row.chunk_index },
                similarity := rowSimilarity row, id := row.id })

/-! ## LLM client (`src/core/llm_client.py`) -/

/-- A chat message: role and content. -/
abbrev ChatMessage := String × String

/-- The Groq chat backend (external collaborator): maps the message list to
either an exception (error string) or the completion content (`none`
models a null `message.content`). -/
abbrev ChatBackend := List ChatMessage → Except String (Option String)

/-- `GroqClient.generate`: builds the message list and wraps the chat call
in `try/except`; an exception is caught and returned as the plain string
`"Error generating response: ..."`, a null content becomes `""`. -/
def generate (backend : ChatBackend) (prompt : String)
    (system_prompt : Option String) : String :=
  let messages :=
    (match system_prompt with
     | some sp => [(("system" : String), sp)]
     | none => []) ++ [(("user" : String), prompt)]
  match backend messages with
  | .ok content => content.getD ""
  | .error e => "Error generating response: " ++ e

/-- The default system prompt of `GroqClient.generate_with_context`
(transcribed, including the source file's doubly-encoded em dash). -/
def defaultSystemPrompt : String :=
  "You are a helpful AI assistant specialized in U.S. tax filing for international students on F-1 and J-1 visas.\n\nYour role:\n- Answer questions clearly and accurately based ONLY on the provided IRS documentation and reference data\n- Be specific: quote exact form numbers (e.g. Form 8843, 1040-NR), dollar amounts, and conditions from the sources\n- Cite every important fact with its source (e.g. \"Publication 519, page 12\" or \"treaty_lookup - India\")\n- Use simple language suitable for non-native English speakers\n- If the provided context does not clearly support an answer, say so explicitly and recommend consulting IRS.gov or a tax professional‚Äîdo not guess or give vague generalities\n\nImportant:\n- You provide educational information, NOT professional tax advice\n- Do not generalize beyond what the sources say; when in doubt, state the limitation\n- Always include a brief disclaimer that this is not professional tax advice"

/-- Metadata of a retrieved chunk as the pipeline consumes it. -/
structure DocMetadata where
  source : String
  page : Int
deriving DecidableEq, Repr

/-- One retrieval result as consumed by `answer_question` and
`generate_with_context`. -/
structure RetrievedDoc where
  text : String
  metadata : DocMetadata
  similarity : ℚ
deriving DecidableEq, Repr

/-- The user profile dictionary (`user_info`); absent keys are `none`. -/
structure UserInfo where
  visa_type : Option String
  country : Option String
  years_in_us : Option String
  state : Option String
deriving DecidableEq, Repr

/-- The grounding-context block of `generate_with_context`. -/
def contextText (chunks : List RetrievedDoc) : String :=
  String.intercalate "\n\n" (chunks.map (fun chunk =>
    "[Source: " ++ chunk.metadata.source ++ ", Page: " ++ toString chunk.metadata.page ++
    "]\n" ++ chunk.text))

/-- The profile block of `generate_with_context` (an absent profile renders
as the empty string, absent fields as `"Not specified"`). -/
def profileText (user_info : Option UserInfo) : String :=
  match user_info with
  | none => ""
  | some u =>
    "User Profile:\n- Visa Type: " ++ u.visa_type.getD ("Not specified") ++
    "\n- Country: " ++ u.country.getD ("Not specified") ++
    "\n- Years in U.S.: " ++ u.years_in_us.getD ("Not specified") ++
    "\n- State: " ++ u.state.getD ("Not specified") ++ "\n\n"

/-- `GroqClient.generate_with_context`: assembles the RAG prompt and
delegates to `generate` under the fixed system prompt. -/
def generate_with_context (backend : ChatBackend) (query : String)
    (context_chunks : List RetrievedDoc) (user_info : Option UserInfo) : String :=
  let prompt :=
    profileText user_info ++ "Relevant IRS Documentation and Reference Data:\n" ++
    contextText context_chunks ++ "\n\nUser Question: " ++ query ++
    "\n\nInstructions:\n1. Answer based ONLY on the text above. Do not add information from outside the provided context\n2. Be specific: name forms, amounts, and conditions from the sources. Cite source and page (or reference name) for each fact\n3. If the context does not contain enough information to answer, say \"The provided sources do not clearly address this. Please check IRS.gov or a tax professional\" instead of giving a vague answer\n4. Keep the answer concise but complete. Use simple, clear language\n5. End with: \"This is educational information only, not professional tax advice\"\n\nAnswer:"
  generate backend prompt (some defaultSystemPrompt)

/-! ## RAG pipeline (`src/core/rag_pipeline.py`) -/

/-- One entry of the `sources` list assembled by `answer_question`. -/
structure SourceEntry where
  source : String
  page : Int
  similarity : ℚ
deriving DecidableEq, Repr

/-- The dictionary returned by `RAGPipeline.answer_question`;
`num_sources = none` models the key being absent from the dictionary. -/
structure AnswerDict where
  answer : String
  sources : List SourceEntry
  confidence : String
  num_sources : Option Nat
deriving DecidableEq, Repr

/-- The mean similarity `avg_similarity` of `answer_question`. -/
def avgSimilarity (docs : List RetrievedDoc) : ℚ :=
  (docs.map (fun d => d.similarity)).sum / (docs.length : ℚ)

/-- `RAGPipeline.answer_question`.  The retrieval step (embed + search) is
abstracted by its result list `retrieved`, the generator call by `gen`; the
boolean records whether `llm_client.generate_with_context` was invoked on
this call.  The source's locals `answer`, `sources`, `avg_similarity` and
`confidence` are inlined into the returned dictionary. -/
def answer_question (gen : List RetrievedDoc → String)
    (retrieved : List RetrievedDoc) : AnswerDict × Bool :=
  if retrieved.isEmpty then
    ({ answer := "I don't have enough information in my knowledge base to answer this question. Please consult the IRS website or a tax professional.",
       sources := [], confidence := "none", num_sources := none }, false)
  else
    ({ answer := gen retrieved,
       sources := retrieved.map (fun d =>
         { source := d.metadata.source, page := d.metadata.page,
           similarity := d.similarity : SourceEntry }),
       confidence :=
         if avgSimilarity retrieved > 1/2 then "high"
         else if avgSimilarity retrieved > 3/10 then "medium" else "low",
       num_sources := some retrieved.length }, true)

/-- A sample retrieved document, used by concrete witnesses. -/
def sampleDoc : RetrievedDoc :=
  { text := "ctx", metadata := { source := "p519", page := 12 }, similarity := 3/5 }

/-- Sample Chroma response rows, used by concrete witnesses. -/
def sampleRows : List ChromaRow :=
  [{ id := "a", doc := "da", source := "s", page := 1, context := "",
     chunk_index := 1, dist := some 1 },
   { id := "b", doc := "db", source := "s", page := 2, context := "",
     chunk_index := 2, dist := some 3 }]

/-! ## Helper lemmas -/

theorem takeLast_length_le (n : Nat) (s : Str) : (takeLast n s).length ≤ n := by
  simp only [takeLast, List.length_drop]; omega

theorem maxLen_cons (a : Str) (t : List Str) : maxLen (a :: t) = max a.length (maxLen t) := rfl

theorem le_maxLen (ls : List Str) (p : Str) (hp : p ∈ ls) : p.length ≤ maxLen ls := by
  induction ls with
  | nil => cases hp
  | cons a t ih =>
    rw [maxLen_cons]
    rcases List.mem_cons.mp hp with h | h
    · subst h; omega
    · have := ih h; omega

theorem hasContent_ne_nil (s : Str) (h : hasContent s = true) : s ≠ [] := by
  intro hnil; subst hnil; simp [hasContent] at h

theorem reattach_length_le (sep cur piece : Str) :
    (reattach sep cur piece).length ≤ sep.length + piece.length := by
  unfold reattach
  split
  · exact le_of_eq (List.length_append _ _)
  · omega

/-- Each loop iteration keeps the current chunk and all emitted chunks within
the bound `B` once `B` dominates both `C + |sep|` and `o + |sep| + |piece|`. -/
theorem accStep_bound (C o : Nat) (sep : Str) (B : Nat) (st : AccState) (piece : Str)
    (hB1 : C + sep.length ≤ B) (hB2 : o + sep.length + piece.length ≤ B)
    (hcur : st.current.length ≤ B)
    (hch : ∀ ch ∈ st.chunks, ch.length ≤ B) :
    (accStep C o sep st piece).current.length ≤ B ∧
      ∀ ch ∈ (accStep C o sep st piece).chunks, ch.length ≤ B := by
  have hsplitlen := reattach_length_le sep st.current piece
  unfold accStep
  split
  · rename_i hle
    refine ⟨?_, hch⟩
    simp only [List.length_append]
    split
    · omega
    · split
      · simp only [List.length_append]; omega
      · omega
  · rename_i hgt
    constructor
    · show (if 0 < o ∧ st.current ≠ [] then
          takeLast o st.current ++ reattach sep st.current piece
        else reattach sep st.current piece).length ≤ B
      split
      · have h1 := takeLast_length_le o st.current
        simp only [List.length_append]
        omega
      · omega
    · show ∀ ch ∈ (if hasContent st.current then st.chunks ++ [st.current] else st.chunks),
        ch.length ≤ B
      split
      · intro ch hin
        rcases List.mem_append.mp hin with h | h
        · exact hch ch h
        · rw [List.mem_singleton.mp h]; exact hcur
      · exact hch

/-- The loop invariant of `accStep_bound`, folded over all pieces. -/
theorem foldl_accStep_bound (C o : Nat) (sep : Str) (B : Nat)
    (hB1 : C + sep.length ≤ B) :
    ∀ pieces : List Str, (∀ p ∈ pieces, o + sep.length + p.length ≤ B) →
    ∀ st : AccState, st.current.length ≤ B → (∀ ch ∈ st.chunks, ch.length ≤ B) →
      (pieces.foldl (accStep C o sep) st).current.length ≤ B ∧
      ∀ ch ∈ (pieces.foldl (accStep C o sep) st).chunks, ch.length ≤ B := by
  intro pieces
  induction pieces with
  | nil => intro _ st h1 h2; exact ⟨h1, h2⟩
  | cons p ps ih =>
    intro hp st h1 h2
    simp only [List.foldl_cons]
    have hstep := accStep_bound C o sep B st p hB1 (hp p (by simp)) h1 h2
    exact ih (fun q hq => hp q (by simp [hq])) _ hstep.1 hstep.2

/-- Every chunk `accumulate` emits is bounded by
`max (C + |sep|) (o + |sep| + longest piece)`. -/
theorem accumulate_bound (C o : Nat) (sep : Str) (pieces : List Str) :
    ∀ ch ∈ accumulate C o sep pieces,
      ch.length ≤ max (C + sep.length) (o + sep.length + maxLen pieces) := by
  intro ch hch
  unfold accumulate finalEmit at hch
  have h := foldl_accStep_bound C o sep
    (max (C + sep.length) (o + sep.length + maxLen pieces)) (by omega) pieces
    (fun p hp => by have := le_maxLen pieces p hp; omega)
    ⟨[], []⟩ (by simp) (by simp)
  split at hch
  · rcases List.mem_append.mp hch with hin | hin
    · exact h.2 ch hin
    · rw [List.mem_singleton.mp hin]; exact h.1
  · exact h.2 ch hch

/-- Each loop iteration only ever emits chunks that contain a
non-whitespace character (the emissions are guarded by `strip()`). -/
theorem accStep_content (C o : Nat) (sep : Str) (st : AccState) (piece : Str)
    (hch : ∀ ch ∈ st.chunks, hasContent ch = true) :
    ∀ ch ∈ (accStep C o sep st piece).chunks, hasContent ch = true := by
  unfold accStep
  split
  · exact hch
  · show ∀ ch ∈ (if hasContent st.current then st.chunks ++ [st.current] else st.chunks),
      hasContent ch = true
    split
    · rename_i hcont
      intro ch hin
      rcases List.mem_append.mp hin with h | h
      · exact hch ch h
      · rw [List.mem_singleton.mp h]; exact hcont
    · exact hch

/-- The invariant of `accStep_content`, folded over all pieces. -/
theorem foldl_accStep_content (C o : Nat) (sep : Str) :
    ∀ pieces : List Str, ∀ st : AccState, (∀ ch ∈ st.chunks, hasContent ch = true) →
      ∀ ch ∈ (pieces.foldl (accStep C o sep) st).chunks, hasContent ch = true := by
  intro pieces
  induction pieces with
  | nil => intro st h; exact h
  | cons p ps ih =>
    intro st h
    simp only [List.foldl_cons]
    exact ih _ (accStep_content C o sep st p h)

/-- Every chunk `accumulate` emits contains a non-whitespace character. -/
theorem accumulate_content (C o : Nat) (sep : Str) (pieces : List Str) :
    ∀ ch ∈ accumulate C o sep pieces, hasContent ch = true := by
  intro ch hch
  unfold accumulate finalEmit at hch
  have h := foldl_accStep_content C o sep pieces ⟨[], []⟩ (by simp)
  split at hch
  · rename_i hcont
    rcases List.mem_append.mp hch with hin | hin
    · exact h ch hin
    · rw [List.mem_singleton.mp hin]; exact hcont
  · exact h ch hch

/-- The indices produced by `range(0, stop, step)` for a positive step and
stop lie in `[0, stop)`. -/
theorem pyRange0_pos_lt (stop step : Int) (hstep : 0 < step) (hstop : 0 < stop)
    (idxs : List Int) (h : pyRange0 stop step = some idxs) :
    ∀ i ∈ idxs, 0 ≤ i ∧ i < stop := by
  unfold pyRange0 at h
  rw [if_neg (by omega), if_pos hstep] at h
  obtain rfl := (Option.some.inj h).symm
  intro i hi
  rw [List.mem_map] at hi
  obtain ⟨k, hk, rfl⟩ := hi
  rw [List.mem_range] at hk
  refine ⟨mul_nonneg (Int.natCast_nonneg k) (le_of_lt hstep), ?_⟩
  have hq0 : 0 ≤ (stop + step - 1) / step := Int.ediv_nonneg (by omega) (by omega)
  have hcast : ((((stop + step - 1) / step).toNat : Int)) = (stop + step - 1) / step :=
    Int.toNat_of_nonneg hq0
  have hklt : (k : Int) < (stop + step - 1) / step := by
    calc (k : Int) < ((((stop + step - 1) / step).toNat : Nat) : Int) := by exact_mod_cast hk
    _ = (stop + step - 1) / step := hcast
  have hkq : (k : Int) ≤ (stop + step - 1) / step - 1 := by omega
  have hdm := Int.ediv_add_emod (stop + step - 1) step
  have hmn := Int.emod_nonneg (stop + step - 1) (by omega : step ≠ 0)
  have h3 : (k : Int) * step ≤ ((stop + step - 1) / step - 1) * step :=
    mul_le_mul_of_nonneg_right hkq (by omega)
  nlinarith [h3, hdm, hmn]

/-- `range(0, stop, step)` is empty for a negative step and positive stop. -/
theorem pyRange0_neg_empty (stop step : Int) (hstop : 0 < stop) (hstep : step < 0) :
    pyRange0 stop step = some [] := by
  unfold pyRange0
  rw [if_neg (by omega), if_neg (by omega)]
  have hq : (-stop + (-step) - 1) / (-step) ≤ 0 := by
    by_contra hq1
    push_neg at hq1
    have hdm := Int.ediv_add_emod (-stop + (-step) - 1) (-step)
    have hmn := Int.emod_nonneg (-stop + (-step) - 1) (by omega : (-step) ≠ 0)
    have h1 : (-step) * 1 ≤ (-step) * ((-stop + (-step) - 1) / (-step)) :=
      mul_le_mul_of_nonneg_left (by omega) (by omega)
    linarith
  rw [Int.toNat_of_nonpos hq]
  simp

/-! ## Claim C2 -/

/-- Claim C2 counterexample: with target 10 and overlap 0 on
`"abcd\n\nefgh\n\nz"` the separator path (paragraph separator, not the
fixed-width fallback) emits the chunk `"abcd\n\n\n\nefgh"` of length 12,
exceeding the target although the chosen separator splits the text into
pieces of at most 4 characters.  The loop checks the size with one copy of
the separator but appends two. -/
theorem C2_counterexample :
    split_text 10 0 (("abcd\n\nefgh\n\nz").toList) separators =
      some [("abcd\n\n\n\nefgh").toList, ("\n\nz").toList] ∧
    usesFallback 10 (("abcd\n\nefgh\n\nz").toList) separators = false ∧
    10 < (("abcd\n\n\n\nefgh").toList).length := by decide

/-- Claim C2 (amended): for `target_size ≥ 1` and `0 ≤ overlap <
target_size`, a chunk never exceeds the target on the base path or in the
fixed-width fallback, and on the separator path its length is bounded by
`max (target_size + |sep|) (overlap + |sep| + longest piece)` for the
chosen separator — the bound `splitBound` computes. -/
theorem C2_chunk_length_bound (C o : Nat) (text : Str) (chunks : List Str)
    (hC : 0 < C) (ho : o < C)
    (hs : split_text C o text separators = some chunks) :
    ∀ ch ∈ chunks, ch.length ≤ splitBound C o text separators := by
  intro ch hch
  unfold split_text at hs
  unfold splitBound
  by_cases hfit : text.length ≤ C
  · rw [if_pos hfit] at hs
    rw [if_pos hfit]
    obtain rfl := (Option.some.inj hs).symm
    split at hch
    · rw [List.mem_singleton.mp hch]; exact hfit
    · cases hch
  · rw [if_neg hfit] at hs
    rw [if_neg hfit]
    cases hfind : separators.find? (fun sep => pyContains text sep) with
    | some sep =>
      rw [hfind] at hs
      have hs2 : some (accumulate C o sep (pySplit text sep)) = some chunks := hs
      obtain rfl := (Option.some.inj hs2).symm
      exact accumulate_bound C o sep (pySplit text sep) ch hch
    | none =>
      rw [hfind] at hs
      have hs2 : fallbackSlices C o text = some chunks := hs
      show ch.length ≤ C
      unfold fallbackSlices at hs2
      have hstep : (0 : Int) < (C : Int) - (o : Int) := by omega
      cases hr : pyRange0 ((text.length : Nat) : Int) ((C : Int) - (o : Int)) with
      | none => rw [hr] at hs2; cases hs2
      | some idxs =>
        rw [hr] at hs2
        simp only [Option.map_some'] at hs2
        obtain rfl := (Option.some.inj hs2).symm
        rw [List.mem_map] at hch
        obtain ⟨i, hi, rfl⟩ := hch
        simp only [List.length_take]
        omega

/-- Claim C2 witness: the amended bound at the counterexample input. -/
theorem C2_chunk_length_bound_witness :
    split_text 10 0 (("abcd\n\nefgh\n\nz").toList) separators =
      some [("abcd\n\n\n\nefgh").toList, ("\n\nz").toList] ∧
    ∀ ch ∈ [("abcd\n\n\n\nefgh").toList, ("\n\nz").toList],
      ch.length ≤ splitBound 10 0 (("abcd\n\nefgh\n\nz").toList) separators :=
  ⟨by decide, C2_chunk_length_bound 10 0 (("abcd\n\nefgh\n\nz").toList)
    [("abcd\n\n\n\nefgh").toList, ("\n\nz").toList] (by decide) (by decide) (by decide)⟩

/-! ## Claim C6 -/

/-- Claim C6 counterexample: an all-tab text of length 3 with target 2
contains no listed separator (tabs are whitespace but not the space
separator), so the fixed-width fallback returns whitespace-only chunks. -/
theorem C6_counterexample :
    split_text 2 0 (("\t\t\t").toList) separators =
      some [("\t\t").toList, ("\t").toList] ∧
    hasContent (("\t\t").toList) = false := by decide

/-- Claim C6 (amended): for `target_size ≥ 1` and `0 ≤ overlap <
target_size`, `split_text` never returns an empty chunk, and outside the
fixed-width fallback every chunk contains a non-whitespace character;
fallback slices can be whitespace-only. -/
theorem C6_no_degenerate_chunks (C o : Nat) (text : Str) (chunks : List Str)
    (hC : 0 < C) (ho : o < C)
    (hs : split_text C o text separators = some chunks) :
    ∀ ch ∈ chunks, ch ≠ [] ∧
      (usesFallback C text separators = false → hasContent ch = true) := by
  intro ch hch
  unfold split_text at hs
  by_cases hfit : text.length ≤ C
  · rw [if_pos hfit] at hs
    obtain rfl := (Option.some.inj hs).symm
    split at hch
    · rename_i hcont
      rw [List.mem_singleton.mp hch]
      exact ⟨hasContent_ne_nil text hcont, fun _ => hcont⟩
    · cases hch
  · rw [if_neg hfit] at hs
    cases hfind : separators.find? (fun sep => pyContains text sep) with
    | some sep =>
      rw [hfind] at hs
      have hs2 : some (accumulate C o sep (pySplit text sep)) = some chunks := hs
      obtain rfl := (Option.some.inj hs2).symm
      have hcont := accumulate_content C o sep (pySplit text sep) ch hch
      exact ⟨hasContent_ne_nil ch hcont, fun _ => hcont⟩
    | none =>
      rw [hfind] at hs
      have hs2 : fallbackSlices C o text = some chunks := hs
      unfold fallbackSlices at hs2
      have hstep : (0 : Int) < (C : Int) - (o : Int) := by omega
      have hstop : (0 : Int) < ((text.length : Nat) : Int) := by omega
      cases hr : pyRange0 ((text.length : Nat) : Int) ((C : Int) - (o : Int)) with
      | none => rw [hr] at hs2; cases hs2
      | some idxs =>
        rw [hr] at hs2
        simp only [Option.map_some'] at hs2
        obtain rfl := (Option.some.inj hs2).symm
        rw [List.mem_map] at hch
        obtain ⟨i, hi, rfl⟩ := hch
        have hlt := pyRange0_pos_lt _ _ hstep hstop idxs hr i hi
        constructor
        · apply List.length_pos.mp
          simp only [List.length_take, List.length_drop]
          omega
        · intro hfb
          exfalso
          unfold usesFallback at hfb
          rw [hfind] at hfb
          simp at hfb
          omega

/-- Claim C6 witness: the amended statement at a concrete input that takes
the separator path. -/
theorem C6_no_degenerate_chunks_witness :
    split_text 10 0 (("abcd\n\nefgh\n\nz").toList) separators =
      some [("abcd\n\n\n\nefgh").toList, ("\n\nz").toList] ∧
    ∀ ch ∈ [("abcd\n\n\n\nefgh").toList, ("\n\nz").toList], ch ≠ [] ∧
      (usesFallback 10 (("abcd\n\nefgh\n\nz").toList) separators = false →
        hasContent ch = true) :=
  ⟨by decide, C6_no_degenerate_chunks 10 0 (("abcd\n\nefgh\n\nz").toList)
    [("abcd\n\n\n\nefgh").toList, ("\n\nz").toList] (by decide) (by decide) (by decide)⟩

/-! ## Claim C8 -/

/-- Claim C8 counterexample: `overlap > chunk_size` is accepted without
validation, and on a non-blank text with no listed separator it silently
yields no chunks at all (the fallback `range` is empty); with
`overlap = chunk_size` the fallback raises `ValueError` at chunking time
instead of rejecting the configuration.  Neither branch of the claim
(explicit configuration error, or clamping with chunks produced under the
normal contract) holds. -/
theorem C8_counterexample :
    hasContent (("abcdef").toList) = true ∧
    split_text 5 7 (("abcdef").toList) separators = some [] ∧
    split_text 5 5 (("abcdef").toList) separators = none := by decide

/-- Claim C8 (amended): with `overlap ≥ target_size` the configuration is
accepted unvalidated; the base and separator paths still terminate with a
result, but on the fixed-width fallback `overlap = target_size` raises
`ValueError` (zero range step) and `overlap > target_size` silently
returns an empty chunk list. -/
theorem C8_overlap_ge_size_behavior (C o : Nat) (text : Str)
    (hC : 0 < C) (ho : C ≤ o) :
    ((text.length ≤ C ∨ (separators.find? (fun sep => pyContains text sep)).isSome) →
      (split_text C o text separators).isSome) ∧
    (C < text.length → separators.find? (fun sep => pyContains text sep) = none →
      split_text C o text separators = if o = C then none else some []) := by
  constructor
  · intro hcase
    unfold split_text
    by_cases hfit : text.length ≤ C
    · rw [if_pos hfit]; rfl
    · rw [if_neg hfit]
      rcases hcase with h | h
      · exact absurd h hfit
      · cases hfind : separators.find? (fun sep => pyContains text sep) with
        | none => rw [hfind] at h; simp at h
        | some sep => rfl
  · intro hlen hnone
    unfold split_text
    rw [if_neg (by omega), hnone]
    show fallbackSlices C o text = if o = C then none else some []
    unfold fallbackSlices
    by_cases heq : o = C
    · subst heq
      rw [if_pos rfl]
      simp [pyRange0, sub_self]
    · rw [if_neg heq]
      rw [pyRange0_neg_empty ((text.length : Nat) : Int) ((C : Int) - (o : Int))
        (by omega) (by omega)]
      rfl

/-- Claim C8 witness: the amended behavior at target 5, overlap 7, on a
non-blank six-character text with no separator. -/
theorem C8_overlap_ge_size_behavior_witness :
    (((("abcdef").toList).length ≤ 5 ∨
        (separators.find? (fun sep => pyContains (("abcdef").toList) sep)).isSome) →
      (split_text 5 7 (("abcdef").toList) separators).isSome) ∧
    (5 < (("abcdef").toList).length →
      separators.find? (fun sep => pyContains (("abcdef").toList) sep) = none →
      split_text 5 7 (("abcdef").toList) separators = if 7 = 5 then none else some []) :=
  C8_overlap_ge_size_behavior 5 7 (("abcdef").toList) (by decide) (by decide)

/-! ## Claim C1 -/

/-- Claim C1: when the retrieval step returns zero results,
`answer_question` returns the fixed insufficient-information answer with
confidence `"none"` and empty sources, and the generator is never invoked
on that call (invocation flag `false`), for every generator. -/
theorem C1_empty_retrieval_fixed_answer (gen : List RetrievedDoc → String) :
    answer_question gen [] =
      ({ answer := "I don't have enough information in my knowledge base to answer this question. Please consult the IRS website or a tax professional.",
         sources := [], confidence := "none", num_sources := none }, false) := rfl

/-- Claim C1 witness: the fixed answer at a concrete generator. -/
theorem C1_empty_retrieval_fixed_answer_witness :
    answer_question (fun _ => "unused") [] =
      ({ answer := "I don't have enough information in my knowledge base to answer this question. Please consult the IRS website or a tax professional.",
         sources := [], confidence := "none", num_sources := none }, false) :=
  C1_empty_retrieval_fixed_answer (fun _ => "unused")

/-! ## Claim C4 -/

/-- Claim C4: on a non-empty retrieval list the confidence is `"high"`
exactly when the mean similarity exceeds 1/2, `"medium"` exactly when it
lies in (3/10, 1/2], `"low"` exactly when it is at most 3/10, and it is
never `"none"`. -/
theorem C4_confidence_bucketing (gen : List RetrievedDoc → String)
    (retrieved : List RetrievedDoc) (h : retrieved ≠ []) :
    ((answer_question gen retrieved).1.confidence = "high" ↔
      1/2 < avgSimilarity retrieved) ∧
    ((answer_question gen retrieved).1.confidence = "medium" ↔
      (3/10 < avgSimilarity retrieved ∧ avgSimilarity retrieved ≤ 1/2)) ∧
    ((answer_question gen retrieved).1.confidence = "low" ↔
      avgSimilarity retrieved ≤ 3/10) ∧
    (answer_question gen retrieved).1.confidence ≠ "none" := by
  rcases retrieved with _ | ⟨d, ds⟩
  · exact absurd rfl h
  · have hconf : (answer_question gen (d :: ds)).1.confidence =
        (if avgSimilarity (d :: ds) > 1/2 then "high"
         else if avgSimilarity (d :: ds) > 3/10 then "medium" else "low") := rfl
    rw [hconf]
    by_cases h1 : 1/2 < avgSimilarity (d :: ds)
    · rw [if_pos h1]
      refine ⟨iff_of_true rfl h1, ?_, ?_, by decide⟩
      · constructor
        · intro hc; exact absurd hc (by decide)
        · rintro ⟨-, h2⟩; linarith
      · constructor
        · intro hc; exact absurd hc (by decide)
        · intro h2; linarith
    · rw [if_neg h1]
      push_neg at h1
      by_cases h2 : 3/10 < avgSimilarity (d :: ds)
      · rw [if_pos h2]
        refine ⟨?_, iff_of_true rfl ⟨h2, h1⟩, ?_, by decide⟩
        · constructor
          · intro hc; exact absurd hc (by decide)
          · intro hgt; linarith
        · constructor
          · intro hc; exact absurd hc (by decide)
          · intro hle; linarith
      · rw [if_neg h2]
        push_neg at h2
        refine ⟨?_, ?_, iff_of_true rfl h2, by decide⟩
        · constructor
          · intro hc; exact absurd hc (by decide)
          · intro hgt; linarith
        · constructor
          · intro hc; exact absurd hc (by decide)
          · rintro ⟨hgt, -⟩; linarith

/-- Claim C4 witness: the bucket characterisation at a one-element
retrieval list. -/
theorem C4_confidence_bucketing_witness :
    ((answer_question (fun _ => "") [sampleDoc]).1.confidence = "high" ↔
      1/2 < avgSimilarity [sampleDoc]) ∧
    ((answer_question (fun _ => "") [sampleDoc]).1.confidence = "medium" ↔
      (3/10 < avgSimilarity [sampleDoc] ∧ avgSimilarity [sampleDoc] ≤ 1/2)) ∧
    ((answer_question (fun _ => "") [sampleDoc]).1.confidence = "low" ↔
      avgSimilarity [sampleDoc] ≤ 3/10) ∧
    (answer_question (fun _ => "") [sampleDoc]).1.confidence ≠ "none" :=
  C4_confidence_bucketing (fun _ => "") [sampleDoc] (List.cons_ne_nil _ _)

/-! ## Claim C10 -/

/-- Claim C10: the returned dictionary carries `num_sources` (equal to the
length of its `sources` list) exactly when at least one retrieval result
survived; on the empty-retrieval path the key is absent (`none`), the
dictionary holding only answer, sources and confidence. -/
theorem C10_num_sources_key (gen : List RetrievedDoc → String)
    (retrieved : List RetrievedDoc) :
    ((answer_question gen retrieved).1.num_sources = none ↔ retrieved = []) ∧
    (retrieved ≠ [] → (answer_question gen retrieved).1.num_sources =
      some ((answer_question gen retrieved).1.sources).length) := by
  rcases retrieved with _ | ⟨d, ds⟩
  · exact ⟨⟨fun _ => rfl, fun _ => rfl⟩, fun hc => absurd rfl hc⟩
  · refine ⟨⟨fun hc => Option.noConfusion hc, fun hc => List.noConfusion hc⟩, fun _ => ?_⟩
    show some (d :: ds).length = some ((d :: ds).map _).length
    rw [List.length_map]

/-- Claim C10 witness: the key presence at a concrete non-empty and the
concrete empty retrieval list. -/
theorem C10_num_sources_key_witness :
    ((answer_question (fun _ => "") [sampleDoc]).1.num_sources = none ↔
      ([sampleDoc] : List RetrievedDoc) = []) ∧
    (([sampleDoc] : List RetrievedDoc) ≠ [] →
      (answer_question (fun _ => "") [sampleDoc]).1.num_sources =
        some ((answer_question (fun _ => "") [sampleDoc]).1.sources).length) :=
  C10_num_sources_key (fun _ => "") [sampleDoc]

/-! ## Claim C5 -/

/-- Claim C5: `search` never returns a result whose similarity, computed as
`1 / (1 + distance)`, is below the threshold; the distances of the cosine
backend are non-negative, which the hypothesis records. -/
theorem C5_threshold_filtering (rows : List ChromaRow) (t : ℚ)
    (hd : ∀ row ∈ rows, ∀ d, row.dist = some d → 0 ≤ d) :
    ∀ res ∈ search rows t, t ≤ res.similarity := by
  intro res hres
  unfold search at hres
  rw [List.mem_filterMap] at hres
  obtain ⟨row, hrow, hf⟩ := hres
  by_cases hc : t > 0 ∧ rowSimilarity row < t
  · rw [if_pos hc] at hf; exact Option.noConfusion hf
  · rw [if_neg hc] at hf
    obtain rfl := (Option.some.inj hf).symm
    show t ≤ rowSimilarity row
    push_neg at hc
    by_cases ht : 0 < t
    · exact hc ht
    · push_neg at ht
      have h0 : 0 ≤ rowSimilarity row := by
        unfold rowSimilarity
        cases hdist : row.dist with
        | none => norm_num
        | some d =>
          have hd0 := hd row hrow d hdist
          have hpos : (0 : ℚ) < 1 + d := by linarith
          exact le_of_lt (one_div_pos.mpr hpos)
      linarith

/-- Claim C5 witness: threshold 1/3 on two concrete rows (distances 1 and
3, similarities 1/2 and 1/4; the second row is filtered out). -/
theorem C5_threshold_filtering_witness :
    (∀ row ∈ sampleRows, ∀ d, row.dist = some d → 0 ≤ d) ∧
    (∀ res ∈ search sampleRows (1/3), 1/3 ≤ res.similarity) := by
  have hd : ∀ row ∈ sampleRows, ∀ d, row.dist = some d → 0 ≤ d := by
    intro row hrow d hdist
    simp only [sampleRows, List.mem_cons, List.not_mem_nil, or_false] at hrow
    rcases hrow with rfl | rfl
    · obtain rfl := Option.some.inj hdist; norm_num
    · obtain rfl := Option.some.inj hdist; norm_num
  exact ⟨hd, C5_threshold_filtering sampleRows (1/3) hd⟩

/-! ## Claim C7 -/

/-- Claim C7 counterexample: when the chat backend raises, the failure does
not propagate as a typed error — `generate` catches it and returns the
plain string `"Error generating response: ..."`, which the orchestrator
packages as an ordinary answer carrying the retrieved citations and a
bucketed (here `"high"`) confidence. -/
theorem C7_counterexample :
    answer_question
      (fun docs => generate_with_context (fun _ => Except.error "connection refused")
        "Do I file?" docs none) [sampleDoc] =
    ({ answer := "Error generating response: connection refused",
       sources := [{ source := "p519", page := 12, similarity := 3/5 }],
       confidence := "high", num_sources := some 1 }, true) := by
  have havg : avgSimilarity [sampleDoc] = 3/5 := by
    simp [avgSimilarity, sampleDoc]
  have h12 : avgSimilarity [sampleDoc] > 1/2 := by rw [havg]; norm_num
  unfold answer_question
  rw [if_neg (by simp)]
  rw [if_pos h12]
  rfl

/-- Claim C7 (amended): a rejected or unreachable backend call surfaces as
the caught-and-returned string `"Error generating response: ..."` in the
`answer` field of an otherwise normal answer dictionary (generator flag
set, `num_sources` present); no typed error propagates. -/
theorem C7_backend_error_returned_as_answer (e query : String)
    (uinfo : Option UserInfo) (docs : List RetrievedDoc) (h : docs ≠ []) :
    (answer_question
        (fun ds => generate_with_context (fun _ => Except.error e) query ds uinfo)
        docs).1.answer = "Error generating response: " ++ e ∧
    (answer_question
        (fun ds => generate_with_context (fun _ => Except.error e) query ds uinfo)
        docs).2 = true ∧
    (answer_question
        (fun ds => generate_with_context (fun _ => Except.error e) query ds uinfo)
        docs).1.num_sources = some docs.length := by
  rcases docs with _ | ⟨d, ds⟩
  · exact absurd rfl h
  · exact ⟨rfl, rfl, rfl⟩

/-- Claim C7 witness: the amended statement at a concrete failing backend
and one retrieved document. -/
theorem C7_backend_error_returned_as_answer_witness :
    (answer_question
        (fun ds => generate_with_context (fun _ => Except.error "boom") "q" ds none)
        [sampleDoc]).1.answer = "Error generating response: " ++ "boom" ∧
    (answer_question
        (fun ds => generate_with_context (fun _ => Except.error "boom") "q" ds none)
        [sampleDoc]).2 = true ∧
    (answer_question
        (fun ds => generate_with_context (fun _ => Except.error "boom") "q" ds none)
        [sampleDoc]).1.num_sources = some ([sampleDoc] : List RetrievedDoc).length :=
  C7_backend_error_returned_as_answer "boom" "q" none [sampleDoc] (List.cons_ne_nil _ _)

/-! ## Claim C3 -/

set_option maxRecDepth 16384

/-- Claim C3 counterexample: on
`"PaPage 1 of 2 xx\nge 3 of 4 yy\n"` the metadata pass removes the
embedded "Page 1 of 2 xx" line, splicing the remainder into a fresh
"Page 3 of 4 yy" line that only a second pass removes: the normalizer is
not idempotent. -/
theorem C3_counterexample :
    preprocess_irs_text (("PaPage 1 of 2 xx\nge 3 of 4 yy\n").toList) =
      ("Page 3 of 4 yy").toList ∧
    preprocess_irs_text (preprocess_irs_text
      (("PaPage 1 of 2 xx\nge 3 of 4 yy\n").toList)) = [] ∧
    preprocess_irs_text (preprocess_irs_text
        (("PaPage 1 of 2 xx\nge 3 of 4 yy\n").toList)) ≠
      preprocess_irs_text (("PaPage 1 of 2 xx\nge 3 of 4 yy\n").toList) := by
  decide

/-- Claim C3 (amended): the normalizer is not idempotent in general — a
pattern-removal seam can create a fresh metadata match that only a second
pass removes — but idempotence holds on empty or whitespace-only input,
which the entry guard returns unchanged. -/
theorem C3_blank_input_idempotent (x : Str) (h : hasContent x = false) :
    preprocess_irs_text x = x ∧
    preprocess_irs_text (preprocess_irs_text x) = preprocess_irs_text x := by
  have h1 : preprocess_irs_text x = x := by
    unfold preprocess_irs_text
    rw [h]
    rfl
  exact ⟨h1, by rw [h1]; exact h1⟩

/-- Claim C3 witness: idempotence on a concrete whitespace-only input. -/
theorem C3_blank_input_idempotent_witness :
    hasContent (("  \n").toList) = false ∧
    (preprocess_irs_text (("  \n").toList) = ("  \n").toList ∧
     preprocess_irs_text (preprocess_irs_text (("  \n").toList)) =
       preprocess_irs_text (("  \n").toList)) :=
  ⟨by decide, C3_blank_input_idempotent (("  \n").toList) (by decide)⟩

/-! ## Claim C9 -/

/-- Claim C9 counterexample: Scenario A's page produces exactly one chunk
whose text contains "Form 8843", but the context label is the fallback
"Page 1": the heading scanner of `extract_context` matches only
Chapter/Part/Section or numbered headings, and the markdown heading
"## Filing Requirements" does not match. -/
theorem C9_counterexample :
    chunk_document 500 100
      [{ page_number := 1,
         text := ("## Filing Requirements\nAll F-1 students must file Form 8843.").toList }]
      (("f8843").toList) =
    some [{ text := ("## Filing Requirements\nAll F-1 students must file Form 8843.").toList,
            source := ("f8843").toList, page := 1, chunk_index := 1,
            context := ("Page 1").toList, char_count := 60, word_count := 10,
            chunk_id := ("f8843_1").toList }] ∧
    reMatchStart reContextHeading (pyStrip (("## Filing Requirements").toList)) = false := by
  decide

/-- Claim C9 (amended): chunking Scenario A's single page with target 500
yields exactly one chunk, that chunk's text contains "Form 8843", and its
context label is the "Page 1" fallback (not derived from the heading). -/
theorem C9_scenario_a_one_chunk :
    (chunk_document 500 100
      [{ page_number := 1,
         text := ("## Filing Requirements\nAll F-1 students must file Form 8843.").toList }]
      (("f8843").toList)).map List.length = some 1 ∧
    (chunk_document 500 100
      [{ page_number := 1,
         text := ("## Filing Requirements\nAll F-1 students must file Form 8843.").toList }]
      (("f8843").toList)).map
        (fun cs => cs.map (fun c =>
          (pyContains c.text (("Form 8843").toList), c.context))) =
      some [(true, ("Page 1").toList)] := by
  decide

end TaxBuddy
